import Mathlib

/-!
Verification of the grafton-visca VISCA camera-control library.

Shallow embedding of the Rust sources:
* `src/error.rs` — the `ViscaError` taxonomy and `ViscaError::from_code`;
* `src/command/response.rs` — `ViscaResponse`, `ViscaResponseType` and
  `parse_visca_response` (the Response Decoder);
* `src/command/{zoom,focus,pan_tilt,preset,luminance_contrast_sharpness,inquiry}.rs`
  — the typed command encoders;
* `src/visca_command.rs` — the monolithic `ViscaCommand` enum, its `to_bytes`
  and `response_type`;
* `src/lib.rs` — `parse_response` (the Frame Splitter), the terminator test of
  `receive_response` and the completion decision of `send_command_and_wait`.

Machine integers are modelled as `Nat` with explicit `% 2^w` at the points
where the Rust code truncates (u8 casts, 16-bit shifts); `i16` results are
read back through `toSigned16` (two's complement).  Fallible functions return
`Except`.  `Vec<u8>` is `List Nat`; list entries denote bytes, so theorems
about byte values carry `< 256` / `< 16` bounds where they matter.
-/

set_option maxRecDepth 10000

deriving instance DecidableEq for Except

namespace GraftonVisca

/-- Error type of `src/error.rs` (`ViscaError`).  `synError` embeds the Rust
variant `SyntaxError`.  The `Io` variant's payload is reduced to its message.
The `invalidParameter` variant is the `ViscaError::InvalidParameter(String)`
constructor referenced throughout `src/command/*.rs`. -/
inductive ViscaError where
  | ioErr (msg : String)
  | synError
  | commandBufferFull
  | commandCanceled
  | noSocket
  | commandNotExecutable
  | invalidResponseFormat
  | invalidResponseLength
  | unexpectedResponseType
  | unknown (code : Nat)
  | parseError (msg : String)
  | transportError (msg : String)
  | invalidParameter (msg : String)
  deriving DecidableEq

/-- Embeds `ViscaError::from_code` (src/error.rs lines 44-53).  The Rust
`match` on the subcode byte is an equality chain over the literal arms. -/
def ViscaError.from_code (code : Nat) : ViscaError :=
  if code = 0x02 then .synError
  else if code = 0x03 then .commandBufferFull
  else if code = 0x04 then .commandCanceled
  else if code = 0x05 then .noSocket
  else if code = 0x41 then .commandNotExecutable
  else .unknown code

/-- Result discriminator for fallible calls, `Result::is_ok`. -/
def exOk {α : Type} : Except ViscaError α → Bool
  | .ok _ => true
  | .error _ => false

/-- Embeds `ExposureMode` (src/command/exposure.rs). -/
inductive ExposureMode where
  | auto | manual | shutter | iris | bright
  deriving DecidableEq

/-- Embeds `impl TryFrom<u8> for ExposureMode` (src/command/exposure.rs). -/
def ExposureMode.try_from (v : Nat) : Except Unit ExposureMode :=
  if v = 0x00 then .ok .auto
  else if v = 0x03 then .ok .manual
  else if v = 0x0A then .ok .shutter
  else if v = 0x0B then .ok .iris
  else if v = 0x0D then .ok .bright
  else .error ()

/-- Embeds `WhiteBalanceMode` (src/command/white_balance.rs). -/
inductive WhiteBalanceMode where
  | auto | indoor | outdoor | onePush | manual | colorTemperature
  deriving DecidableEq

/-- Embeds `impl TryFrom<u8> for WhiteBalanceMode` (src/command/white_balance.rs). -/
def WhiteBalanceMode.try_from (v : Nat) : Except Unit WhiteBalanceMode :=
  if v = 0x00 then .ok .auto
  else if v = 0x01 then .ok .indoor
  else if v = 0x02 then .ok .outdoor
  else if v = 0x03 then .ok .onePush
  else if v = 0x05 then .ok .manual
  else if v = 0x20 then .ok .colorTemperature
  else .error ()

/-- Embeds `ViscaResponseType` (src/command/response.rs lines 15-62;
`src/visca_command.rs` lines 689-736 declares an identical variant set). -/
inductive ViscaResponseType where
  | panTiltPosition
  | zoomPosition
  | focusPosition
  | exposureMode
  | whiteBalanceMode
  | luminance
  | contrast
  | sharpnessMode
  | sharpnessPosition
  | horizontalFlip
  | verticalFlip
  | imageFlip
  | blackWhiteMode
  | exposureCompensationMode
  | exposureCompensationPosition
  | backlight
  | iris
  | shutter
  | gainLimit
  | antiFlicker
  | redTuning
  | blueTuning
  | saturation
  | hue
  | redGain
  | blueGain
  | colorTemperature
  | autoWhiteBalanceSensitivity
  | threeDNoiseReduction
  | twoDNoiseReduction
  | motionSyncMode
  | motionSyncSpeed
  | focusMode
  | focusZone
  | autoFocusSensitivity
  | focusRange
  | menuOpenClose
  | usbAudio
  | rtmp
  | blockLens
  | blockColorExposure
  | blockPowerImageEffect
  | blockImage
  | zoomWideStandard
  | zoomTeleStandard
  deriving DecidableEq

/-- Embeds `ViscaInquiryResponse` (src/command/mod.rs lines 37-52).  `pan` and
`tilt` are the `i16` fields, read as `Int`; the positions are `u16`, read as
`Nat`. -/
inductive ViscaInquiryResponse where
  | panTiltPosition (pan tilt : Int)
  | luminance (v : Nat)
  | contrast (v : Nat)
  | zoomPosition (position : Nat)
  | focusPosition (position : Nat)
  | gain (gain : Nat)
  | whiteBalance (mode : WhiteBalanceMode)
  | exposureMode (mode : ExposureMode)
  | exposureCompensation (value : Int)
  | backlight (status : Bool)
  | colorTemperature (temperature : Nat)
  | hue (hue : Nat)
  deriving DecidableEq

/-- Embeds `ViscaResponse` (src/command/response.rs lines 6-13). -/
inductive ViscaResponse where
  | ack
  | completion
  | error (e : ViscaError)
  | inquiryResponse (r : ViscaInquiryResponse)
  | unknown (raw : List Nat)
  deriving DecidableEq

/-- The 16-bit accumulation shared by the position decoders of
`parse_visca_response`: byte `a` shifted left 12, `b` left 8, `c` left 4 and
`d` OR-ed in.  Each operand carries the `% 256` of the `u8` source bytes and
the `% 65536` of the 16-bit register the Rust code shifts into. -/
def word16 (a b c d : Nat) : Nat :=
  (((a % 256) <<< 12) % 65536) ||| (((b % 256) <<< 8) % 65536) |||
    (((c % 256) <<< 4) % 65536) ||| (d % 256)

/-- Reads a 16-bit pattern as the Rust `i16` it denotes (two's complement). -/
def toSigned16 (bits : Nat) : Int :=
  if bits % 65536 < 32768 then ((bits % 65536 : Nat) : Int)
  else ((bits % 65536 : Nat) : Int) - 65536

/-- Embeds `parse_visca_response` (src/command/response.rs lines 64-156).
The framing guard, the range dispatch on the second byte, the length-3
completion rule, the per-shape body decoders and the error table are
translated clause by clause; `response[i]` becomes `response.getD i 0`
(indices are in bounds whenever the Rust code reads them). -/
def parse_visca_response (response : List Nat) (response_type : ViscaResponseType) :
    Except ViscaError ViscaResponse :=
  if response.length < 3 ∨ response.getD 0 0 ≠ 0x90 ∨
      response.getD (response.length - 1) 0 ≠ 0xFF then
    .error .invalidResponseFormat
  else if 0x40 ≤ response.getD 1 0 ∧ response.getD 1 0 ≤ 0x4F then
    .ok .ack
  else if 0x50 ≤ response.getD 1 0 ∧ response.getD 1 0 ≤ 0x5F then
    if response.length = 3 then
      .ok .completion
    else
      match response_type with
      | .panTiltPosition =>
        if response.length ≠ 11 then .error .invalidResponseLength
        else
          .ok (.inquiryResponse (.panTiltPosition
            (toSigned16 (word16 (response.getD 2 0) (response.getD 3 0)
              (response.getD 4 0) (response.getD 5 0)))
            (toSigned16 (word16 (response.getD 6 0) (response.getD 7 0)
              (response.getD 8 0) (response.getD 9 0)))))
      | .zoomPosition =>
        if response.length ≠ 7 then .error .invalidResponseLength
        else
          .ok (.inquiryResponse (.zoomPosition
            (word16 (response.getD 2 0) (response.getD 3 0)
              (response.getD 4 0) (response.getD 5 0))))
      | .focusPosition =>
        if response.length ≠ 7 then .error .invalidResponseLength
        else
          .ok (.inquiryResponse (.focusPosition
            (word16 (response.getD 2 0) (response.getD 3 0)
              (response.getD 4 0) (response.getD 5 0))))
      | .exposureMode =>
        if response.length ≠ 4 then .error .invalidResponseLength
        else
          match ExposureMode.try_from (response.getD 2 0) with
          | .ok mode => .ok (.inquiryResponse (.exposureMode mode))
          | .error _ => .error .unexpectedResponseType
      | .whiteBalanceMode =>
        if response.length ≠ 4 then .error .invalidResponseLength
        else
          match WhiteBalanceMode.try_from (response.getD 2 0) with
          | .ok mode => .ok (.inquiryResponse (.whiteBalance mode))
          | .error _ => .error .unexpectedResponseType
      | _ => .ok .completion
  else if 0x60 ≤ response.getD 1 0 ∧ response.getD 1 0 ≤ 0x6F then
    .error (ViscaError.from_code (response.getD 2 0))
  else
    .ok (.unknown response)

/-- Embeds `ZoomCommand` (src/command/zoom.rs).  `direct` carries the `u16`
position as a `Nat`. -/
inductive ZoomCommand where
  | stop
  | teleStandard
  | wideStandard
  | teleVariable (speed : Nat)
  | wideVariable (speed : Nat)
  | direct (position : Nat)
  deriving DecidableEq

/-- Embeds `ZoomCommand::to_bytes` (src/command/zoom.rs lines 17-48).  The
variable-speed arms keep the `speed <= 7` guard and the `0x20 | speed` /
`0x30 | speed` OR; `direct` keeps the unmasked `(position >> k) as u8` casts
(`% 256`) and the `& 0x0F` mask on the last byte. -/
def ZoomCommand.to_bytes : ZoomCommand → Except ViscaError (List Nat)
  | .stop => .ok [0x81, 0x01, 0x04, 0x07, 0x00, 0xFF]
  | .teleStandard => .ok [0x81, 0x01, 0x04, 0x07, 0x02, 0xFF]
  | .wideStandard => .ok [0x81, 0x01, 0x04, 0x07, 0x03, 0xFF]
  | .teleVariable speed =>
    if speed ≤ 7 then .ok [0x81, 0x01, 0x04, 0x07, 0x20 ||| speed, 0xFF]
    else .error (.invalidParameter "Zoom speed must be in the range 0..=7")
  | .wideVariable speed =>
    if speed ≤ 7 then .ok [0x81, 0x01, 0x04, 0x07, 0x30 ||| speed, 0xFF]
    else .error (.invalidParameter "Zoom speed must be in the range 0..=7")
  | .direct position =>
    .ok [0x81, 0x01, 0x04, 0x47, (position >>> 12) % 256, (position >>> 8) % 256,
      (position >>> 4) % 256, (position &&& 0x0F) % 256, 0xFF]

/-- Embeds `FocusCommand` (src/command/focus.rs). -/
inductive FocusCommand where
  | stop
  | farStandard
  | nearStandard
  | farVariable (speed : Nat)
  | nearVariable (speed : Nat)
  | direct (position : Nat)
  | auto
  | manual
  | onePushTrigger
  | infinity
  deriving DecidableEq

/-- Embeds `FocusCommand::to_bytes` (src/command/focus.rs lines 21-56), with
the same conventions as `ZoomCommand.to_bytes`. -/
def FocusCommand.to_bytes : FocusCommand → Except ViscaError (List Nat)
  | .stop => .ok [0x81, 0x01, 0x04, 0x08, 0x00, 0xFF]
  | .farStandard => .ok [0x81, 0x01, 0x04, 0x08, 0x02, 0xFF]
  | .nearStandard => .ok [0x81, 0x01, 0x04, 0x08, 0x03, 0xFF]
  | .farVariable speed =>
    if speed ≤ 7 then .ok [0x81, 0x01, 0x04, 0x08, 0x20 ||| speed, 0xFF]
    else .error (.invalidParameter "Focus speed must be in the range 0..=7")
  | .nearVariable speed =>
    if speed ≤ 7 then .ok [0x81, 0x01, 0x04, 0x08, 0x30 ||| speed, 0xFF]
    else .error (.invalidParameter "Focus speed must be in the range 0..=7")
  | .direct position =>
    .ok [0x81, 0x01, 0x04, 0x48, (position >>> 12) % 256, (position >>> 8) % 256,
      (position >>> 4) % 256, (position &&& 0x0F) % 256, 0xFF]
  | .auto => .ok [0x81, 0x01, 0x04, 0x38, 0x02, 0xFF]
  | .manual => .ok [0x81, 0x01, 0x04, 0x38, 0x03, 0xFF]
  | .onePushTrigger => .ok [0x81, 0x01, 0x04, 0x18, 0x01, 0xFF]
  | .infinity => .ok [0x81, 0x01, 0x04, 0x18, 0x02, 0xFF]

/-- Embeds `PanTiltDirection` (src/command/pan_tilt.rs lines 6-18; the copy in
`src/visca_command.rs` lines 130-141 has the same variants minus `home`). -/
inductive PanTiltDirection where
  | up | down | left | right
  | upLeft | upRight | downLeft | downRight
  | stop | home
  deriving DecidableEq

/-- Embeds `PanTiltDirection::to_bytes` (src/command/pan_tilt.rs lines 20-35). -/
def PanTiltDirection.to_bytes : PanTiltDirection → Nat × Nat
  | .up => (0x03, 0x01)
  | .down => (0x03, 0x02)
  | .left => (0x01, 0x03)
  | .right => (0x02, 0x03)
  | .upLeft => (0x01, 0x01)
  | .upRight => (0x02, 0x01)
  | .downLeft => (0x01, 0x02)
  | .downRight => (0x02, 0x02)
  | .stop => (0x03, 0x03)
  | .home => (0x04, 0x04)

/-- Embeds the `PanSpeed` newtype (src/command/pan_tilt.rs lines 68-93;
`src/visca_command.rs` lines 74-100 declares the identical type). -/
structure PanSpeed where
  val : Nat
  deriving DecidableEq

/-- The constant `PanSpeed::STOP`. -/
def PanSpeed.STOP : PanSpeed := ⟨0x00⟩

/-- The constant `PanSpeed::HIGH_SPEED`. -/
def PanSpeed.HIGH_SPEED : PanSpeed := ⟨0x18⟩

/-- Embeds `PanSpeed::is_valid_value`. -/
def PanSpeed.is_valid_value (value : Nat) : Bool :=
  value == PanSpeed.STOP.val || (0x01 ≤ value && value ≤ PanSpeed.HIGH_SPEED.val)

/-- Embeds `PanSpeed::new` (src/command/pan_tilt.rs lines 76-84). -/
def PanSpeed.new (value : Nat) : Except ViscaError PanSpeed :=
  if PanSpeed.is_valid_value value then .ok ⟨value⟩
  else .error (.invalidParameter "Pan speed must be in the range 0x00..=0x18")

/-- Embeds `PanSpeed::get_value`. -/
def PanSpeed.get_value (s : PanSpeed) : Nat := s.val

/-- Embeds the `TiltSpeed` newtype (src/command/pan_tilt.rs lines 95-120). -/
structure TiltSpeed where
  val : Nat
  deriving DecidableEq

/-- The constant `TiltSpeed::STOP`. -/
def TiltSpeed.STOP : TiltSpeed := ⟨0x00⟩

/-- The constant `TiltSpeed::HIGH_SPEED`. -/
def TiltSpeed.HIGH_SPEED : TiltSpeed := ⟨0x14⟩

/-- Embeds `TiltSpeed::is_valid_value`. -/
def TiltSpeed.is_valid_value (value : Nat) : Bool :=
  value == TiltSpeed.STOP.val || (0x01 ≤ value && value ≤ TiltSpeed.HIGH_SPEED.val)

/-- Embeds `TiltSpeed::new` (src/command/pan_tilt.rs lines 103-111). -/
def TiltSpeed.new (value : Nat) : Except ViscaError TiltSpeed :=
  if TiltSpeed.is_valid_value value then .ok ⟨value⟩
  else .error (.invalidParameter "Tilt speed must be in the range 0x00..=0x14")

/-- Embeds `TiltSpeed::get_value`. -/
def TiltSpeed.get_value (s : TiltSpeed) : Nat := s.val

/-- Embeds `PanTiltCommand` (src/command/pan_tilt.rs lines 37-41). -/
structure PanTiltCommand where
  direction : PanTiltDirection
  pan_speed : PanSpeed
  tilt_speed : TiltSpeed
  deriving DecidableEq

/-- Embeds `PanTiltCommand::to_bytes` (src/command/pan_tilt.rs lines 44-61). -/
def PanTiltCommand.to_bytes (c : PanTiltCommand) : Except ViscaError (List Nat) :=
  let p := c.direction.to_bytes
  if c.direction = .home then
    .ok [0x81, 0x01, 0x06, 0x04, 0xFF]
  else
    .ok [0x81, 0x01, 0x06, 0x01, c.pan_speed.get_value, c.tilt_speed.get_value,
      p.1, p.2, 0xFF]

/-- Embeds `PresetAction` (src/command/preset.rs lines 6-11). -/
inductive PresetAction where
  | reset | set | recall
  deriving DecidableEq

/-- The `PresetAction as u8` discriminant values. -/
def PresetAction.toByte : PresetAction → Nat
  | .reset => 0x00
  | .set => 0x01
  | .recall => 0x02

/-- Embeds `PresetCommand` (src/command/preset.rs lines 13-16). -/
structure PresetCommand where
  action : PresetAction
  preset_number : Nat
  deriving DecidableEq

/-- Embeds `PresetCommand::to_bytes` (src/command/preset.rs lines 19-35),
with its encode-time `preset_number <= 0x59` guard. -/
def PresetCommand.to_bytes (c : PresetCommand) : Except ViscaError (List Nat) :=
  if c.preset_number ≤ 0x59 then
    .ok [0x81, 0x01, 0x04, 0x3F, c.action.toByte, c.preset_number, 0xFF]
  else
    .error (.invalidParameter "Preset number must be in the range 0x00..=0x59 (0-89)")

/-- Embeds `LuminanceCommand` (src/command/luminance_contrast_sharpness.rs). -/
structure LuminanceCommand where
  value : Nat
  deriving DecidableEq

/-- Embeds `LuminanceCommand::to_bytes` with its encode-time `value <= 14`
guard (src/command/luminance_contrast_sharpness.rs lines 11-21). -/
def LuminanceCommand.to_bytes (c : LuminanceCommand) : Except ViscaError (List Nat) :=
  if c.value ≤ 14 then
    .ok [0x81, 0x01, 0x04, 0xA1, 0x00, 0x00, 0x00, c.value, 0xFF]
  else
    .error (.invalidParameter "Luminance value must be in the range 0..=14")

/-- Embeds `ContrastCommand` (src/command/luminance_contrast_sharpness.rs). -/
structure ContrastCommand where
  value : Nat
  deriving DecidableEq

/-- Embeds `ContrastCommand::to_bytes` (value guard `<= 14`). -/
def ContrastCommand.to_bytes (c : ContrastCommand) : Except ViscaError (List Nat) :=
  if c.value ≤ 14 then
    .ok [0x81, 0x01, 0x04, 0xA2, 0x00, 0x00, 0x00, c.value, 0xFF]
  else
    .error (.invalidParameter "Contrast value must be in the range 0..=14")

/-- Embeds `SharpnessCommand` (src/command/luminance_contrast_sharpness.rs). -/
structure SharpnessCommand where
  value : Nat
  deriving DecidableEq

/-- Embeds `SharpnessCommand::to_bytes` (value guard `<= 11`). -/
def SharpnessCommand.to_bytes (c : SharpnessCommand) : Except ViscaError (List Nat) :=
  if c.value ≤ 11 then
    .ok [0x81, 0x01, 0x04, 0x42, 0x00, 0x00, 0x00, c.value, 0xFF]
  else
    .error (.invalidParameter "Sharpness value must be in the range 0..=11")

/-- Embeds `InquiryCommand` (src/command/inquiry.rs lines 6-16). -/
inductive InquiryCommand where
  | panTiltPosition | zoomPosition | focusPosition
  | exposureMode | whiteBalanceMode | luminance | contrast
  deriving DecidableEq

/-- Embeds `InquiryCommand::to_bytes` (src/command/inquiry.rs lines 19-30). -/
def InquiryCommand.to_bytes : InquiryCommand → Except ViscaError (List Nat)
  | .panTiltPosition => .ok [0x81, 0x09, 0x06, 0x12, 0xFF]
  | .zoomPosition => .ok [0x81, 0x09, 0x04, 0x47, 0xFF]
  | .focusPosition => .ok [0x81, 0x09, 0x04, 0x48, 0xFF]
  | .exposureMode => .ok [0x81, 0x09, 0x04, 0x39, 0xFF]
  | .whiteBalanceMode => .ok [0x81, 0x09, 0x04, 0x35, 0xFF]
  | .luminance => .ok [0x81, 0x09, 0x04, 0xA1, 0xFF]
  | .contrast => .ok [0x81, 0x09, 0x04, 0xA2, 0xFF]

/-- Embeds `InquiryCommand::response_type` (src/command/inquiry.rs lines 32-42). -/
def InquiryCommand.response_type : InquiryCommand → Option ViscaResponseType
  | .panTiltPosition => some .panTiltPosition
  | .zoomPosition => some .zoomPosition
  | .focusPosition => some .focusPosition
  | .exposureMode => some .exposureMode
  | .whiteBalanceMode => some .whiteBalanceMode
  | .luminance => some .luminance
  | .contrast => some .contrast

/-- Embeds `Power` (src/visca_command.rs lines 11-15). -/
inductive Power where
  | on | standby
  deriving DecidableEq

/-- The `Power as u8` discriminant values. -/
def Power.toByte : Power → Nat
  | .on => 0x02
  | .standby => 0x03

/-- Embeds `Flip` (src/visca_command.rs lines 17-21). -/
inductive Flip where
  | on | off
  deriving DecidableEq

/-- The `Flip as u8` discriminant values. -/
def Flip.toByte : Flip → Nat
  | .on => 0x02
  | .off => 0x03

/-- Embeds `FocusMode` (src/visca_command.rs lines 42-46). -/
inductive FocusMode where
  | auto | manual
  deriving DecidableEq

/-- The `FocusMode as u8` discriminant values. -/
def FocusMode.toByte : FocusMode → Nat
  | .auto => 0x02
  | .manual => 0x03

/-- The `ExposureMode as u8` discriminant values (src/visca_command.rs lines
23-30 repeat the enum of src/command/exposure.rs with the same values). -/
def ExposureMode.toByte : ExposureMode → Nat
  | .auto => 0x00
  | .manual => 0x03
  | .shutter => 0x0A
  | .iris => 0x0B
  | .bright => 0x0D

/-- The `WhiteBalanceMode as u8` discriminant values (src/visca_command.rs
lines 32-40). -/
def WhiteBalanceMode.toByte : WhiteBalanceMode → Nat
  | .auto => 0x00
  | .indoor => 0x01
  | .outdoor => 0x02
  | .onePush => 0x03
  | .manual => 0x05
  | .colorTemperature => 0x20

/-- Embeds the monolithic `ViscaCommand` enum (src/visca_command.rs lines
159-331).  The Rust `u8` fields become `Nat`; `panTiltDrive` reuses the
`PanSpeed`/`TiltSpeed` newtypes and the shared `PanTiltDirection` (the copy
declared in src/visca_command.rs lacks the `home` variant, which that file's
`PanTiltDrive` arm therefore never sees). -/
inductive ViscaCommand where
  | luminanceDirect (p : Nat)
  | contrastDirect (p : Nat)
  | sharpnessMode (p : Nat)
  | sharpnessReset
  | sharpnessUp
  | sharpnessDown
  | sharpnessDirect (p q : Nat)
  | horizontalFlip (flip : Flip)
  | verticalFlip (flip : Flip)
  | imageFlip (p : Nat)
  | blackWhiteDirect (p : Nat)
  | exposureMode (mode : ExposureMode)
  | exposureCompensationOnOff (flip : Flip)
  | exposureCompensationReset
  | exposureCompensationUp
  | exposureCompensationDown
  | exposureCompensationDirect (p q : Nat)
  | dynamicRangeControlDirect (p : Nat)
  | backlightOnOff (flip : Flip)
  | irisReset
  | irisUp
  | irisDown
  | irisDirect (p : Nat)
  | shutterReset
  | shutterUp
  | shutterDown
  | shutterDirect (p q : Nat)
  | brightReset
  | brightUp
  | brightDown
  | brightDirect (p q : Nat)
  | wideDynamicRangeReset
  | wideDynamicRangeUp
  | wideDynamicRangeDown
  | wideDynamicRangeDirect (p q : Nat)
  | gainReset
  | gainUp
  | gainDown
  | gainDirect (p q : Nat)
  | gainLimitDirect (p : Nat)
  | antiFlickerDirect (p : Nat)
  | whiteBalanceMode (mode : WhiteBalanceMode)
  | onePushTriggerAction
  | redTuningDirect (p q : Nat)
  | blueTuningDirect (p q : Nat)
  | saturationDirect (p : Nat)
  | hueDirect (p : Nat)
  | panTiltDrive (dir : PanTiltDirection) (pan_speed : PanSpeed) (tilt_speed : TiltSpeed)
  | panTiltAbsolutePosition (pan_speed tilt_speed y1 y2 y3 y4 z1 z2 : Nat)
  | panTiltRelativePosition (pan_speed tilt_speed y1 y2 y3 y4 z1 z2 : Nat)
  | panTiltHome
  | panTiltReset
  | panTiltLimitSet (w y1 y2 y3 y4 z1 z2 z3 : Nat)
  | panTiltLimitClear (w y1 y2 y3 y4 z1 z2 z3 : Nat)
  | zoomStop
  | zoomTeleStandard
  | zoomWideStandard
  | zoomTeleAdjustableSpeed (p : Nat)
  | zoomWideAdjustableSpeed (p : Nat)
  | zoomDirect (p q r s : Nat)
  | focusMode (mode : FocusMode)
  | focusToggle
  | focusStop
  | focusFarStandardSpeed
  | focusNearStandardSpeed
  | focusFarAdjustableSpeed (p : Nat)
  | focusNearAdjustableSpeed (p : Nat)
  | focusDirect (p q r s : Nat)
  | focusOnePushAutoFocus
  | focusLock (p : Nat)
  | focusZone (p : Nat)
  | focusRange (p rs tv : Nat)
  | focusRecalibrate
  | presetReset (pp : Nat)
  | presetSet (pp : Nat)
  | presetRecall (pp : Nat)
  | presetSpeedDirect (pp : Nat)
  | motionSyncOnOff (flip : Flip)
  | motionSyncMaxSpeedLimit (p : Nat)
  | cameraMenuOpenClose
  | cameraMenuClose
  | cameraMenuNavigateUp
  | cameraMenuNavigateDown
  | cameraMenuNavigateLeft
  | cameraMenuNavigateRight
  | cameraMenuEnter
  | cameraMenuReturn
  | systemPower (power : Power)
  | systemIfClear
  | systemVideoTemplate (p : Nat)
  | systemLensType (p : Nat)
  | systemMulticastOnOff (flip : Flip)
  | systemRtmpStream (s : Nat) (flip : Flip)
  | systemStandbyLight (p : Nat)
  | systemUsbAudio (flip : Flip)
  | systemPauseVideo (flip : Flip)
  | systemSave
  | inquiryLuminance
  | inquiryContrast
  | inquirySharpnessMode
  | inquirySharpnessPosition
  | inquiryHorizontalFlip
  | inquiryVerticalFlip
  | inquiryImageFlip
  | inquiryBlackWhiteMode
  | inquiryExposureCompensationMode
  | inquiryExposureCompensationPosition
  | inquiryBacklight
  | inquiryIris
  | inquiryShutter
  | inquiryGainLimit
  | inquiryAntiFlicker
  | inquiryWhiteBalanceMode
  | inquiryRedTuning
  | inquiryBlueTuning
  | inquirySaturation
  | inquiryHue
  | inquiryRedGain
  | inquiryBlueGain
  | inquiryColorTemperature
  | inquiryAutoWhiteBalanceSensitivity
  | inquiryThreeDNoiseReduction
  | inquiryTwoDNoiseReduction
  | inquiryPanTiltPosition
  | inquiryZoomPosition
  | inquiryMotionSyncSpeed
  | inquiryFocusPosition
  | inquiryFocusZone
  | inquiryAutoFocusSensitivity
  | inquiryFocusRange
  | inquiryMenuOpenClose
  | inquiryUsbAudio
  | inquiryRtmp
  | inquiryBlockLens
  | inquiryBlockColorExposure
  | inquiryBlockPowerImageEffect
  | inquiryBlockImage

/-- Embeds `ViscaCommand::to_bytes` (src/visca_command.rs lines 334-626).
As in the source, a `match` renders the bytes of every variant and the result
is wrapped in `Ok` unconditionally; no field is validated.  The Rust `u8`
additions `0x20 + p` / `0x30 + p` of the adjustable-speed arms are modelled
with the release-mode wrap `% 256` (in a debug build they panic instead once
they exceed `u8`). -/
def ViscaCommand.to_bytes (c : ViscaCommand) : Except ViscaError (List Nat) :=
  let bytes : List Nat :=
    match c with
    | .luminanceDirect p => [0x81, 0x01, 0x04, 0xA1, 0x00, 0x00, 0x00, p, 0xFF]
    | .contrastDirect p => [0x81, 0x01, 0x04, 0xA2, 0x00, 0x00, 0x00, p, 0xFF]
    | .sharpnessMode p => [0x81, 0x01, 0x04, 0x05, p, 0xFF]
    | .sharpnessReset => [0x81, 0x01, 0x04, 0x02, 0x00, 0xFF]
    | .sharpnessUp => [0x81, 0x01, 0x04, 0x02, 0x02, 0xFF]
    | .sharpnessDown => [0x81, 0x01, 0x04, 0x02, 0x03, 0xFF]
    | .sharpnessDirect p q => [0x81, 0x01, 0x04, 0x42, 0x00, 0x00, p, q, 0xFF]
    | .horizontalFlip flip => [0x81, 0x01, 0x04, 0x61, flip.toByte, 0xFF]
    | .verticalFlip flip => [0x81, 0x01, 0x04, 0x66, flip.toByte, 0xFF]
    | .imageFlip p => [0x81, 0x01, 0x04, 0xA4, p, 0xFF]
    | .blackWhiteDirect p => [0x81, 0x01, 0x04, 0x63, p, 0xFF]
    | .exposureMode mode => [0x81, 0x01, 0x04, 0x39, mode.toByte, 0xFF]
    | .exposureCompensationOnOff flip => [0x81, 0x01, 0x04, 0x3E, flip.toByte, 0xFF]
    | .exposureCompensationReset => [0x81, 0x01, 0x04, 0x0E, 0x00, 0xFF]
    | .exposureCompensationUp => [0x81, 0x01, 0x04, 0x0E, 0x02, 0xFF]
    | .exposureCompensationDown => [0x81, 0x01, 0x04, 0x0E, 0x03, 0xFF]
    | .exposureCompensationDirect p q => [0x81, 0x01, 0x04, 0x4E, 0x00, 0x00, p, q, 0xFF]
    | .dynamicRangeControlDirect p => [0x81, 0x01, 0x04, 0x25, 0x00, 0x00, 0x00, p, 0xFF]
    | .backlightOnOff flip => [0x81, 0x01, 0x04, 0x33, flip.toByte, 0xFF]
    | .irisReset => [0x81, 0x01, 0x04, 0x0B, 0x00, 0xFF]
    | .irisUp => [0x81, 0x01, 0x04, 0x0B, 0x02, 0xFF]
    | .irisDown => [0x81, 0x01, 0x04, 0x0B, 0x03, 0xFF]
    | .irisDirect p => [0x81, 0x01, 0x04, 0x4B, 0x00, 0x00, 0x00, p, 0xFF]
    | .shutterReset => [0x81, 0x01, 0x04, 0x0A, 0x00, 0xFF]
    | .shutterUp => [0x81, 0x01, 0x04, 0x0A, 0x02, 0xFF]
    | .shutterDown => [0x81, 0x01, 0x04, 0x0A, 0x03, 0xFF]
    | .shutterDirect p q => [0x81, 0x01, 0x04, 0x4A, 0x00, 0x00, p, q, 0xFF]
    | .brightReset => [0x81, 0x01, 0x04, 0x0D, 0x00, 0xFF]
    | .brightUp => [0x81, 0x01, 0x04, 0x0D, 0x02, 0xFF]
    | .brightDown => [0x81, 0x01, 0x04, 0x0D, 0x03, 0xFF]
    | .brightDirect p q => [0x81, 0x01, 0x04, 0x4D, 0x00, 0x00, p, q, 0xFF]
    | .wideDynamicRangeReset => [0x81, 0x01, 0x04, 0x21, 0x00, 0xFF]
    | .wideDynamicRangeUp => [0x81, 0x01, 0x04, 0x21, 0x02, 0xFF]
    | .wideDynamicRangeDown => [0x81, 0x01, 0x04, 0x21, 0x03, 0xFF]
    | .wideDynamicRangeDirect p q => [0x81, 0x01, 0x04, 0x51, 0x00, 0x00, p, q, 0xFF]
    | .gainReset => [0x81, 0x01, 0x04, 0x0C, 0x00, 0xFF]
    | .gainUp => [0x81, 0x01, 0x04, 0x0C, 0x02, 0xFF]
    | .gainDown => [0x81, 0x01, 0x04, 0x0C, 0x03, 0xFF]
    | .gainDirect p q => [0x81, 0x01, 0x04, 0x4C, 0x00, 0x00, p, q, 0xFF]
    | .gainLimitDirect p => [0x81, 0x01, 0x04, 0x2C, p, 0xFF]
    | .antiFlickerDirect p => [0x81, 0x01, 0x04, 0x23, p, 0xFF]
    | .whiteBalanceMode mode => [0x81, 0x01, 0x04, 0x35, mode.toByte, 0xFF]
    | .onePushTriggerAction => [0x81, 0x01, 0x04, 0x10, 0x05, 0xFF]
    | .redTuningDirect p q => [0x81, 0x0A, 0x01, 0x12, p, q, 0xFF]
    | .blueTuningDirect p q => [0x81, 0x0A, 0x01, 0x13, p, q, 0xFF]
    | .saturationDirect p => [0x81, 0x01, 0x04, 0x49, 0x00, 0x00, 0x00, p, 0xFF]
    | .hueDirect p => [0x81, 0x01, 0x04, 0x4F, 0x00, 0x00, 0x00, p, 0xFF]
    | .panTiltDrive dir pan_speed tilt_speed =>
      [0x81, 0x01, 0x06, 0x01, pan_speed.get_value, tilt_speed.get_value,
        dir.to_bytes.1, dir.to_bytes.2, 0xFF]
    | .panTiltAbsolutePosition pan_speed tilt_speed y1 y2 y3 y4 z1 z2 =>
      [0x81, 0x01, 0x06, 0x02, pan_speed, tilt_speed, y1, y2, y3, y4, z1, z2, 0xFF]
    | .panTiltRelativePosition pan_speed tilt_speed y1 y2 y3 y4 z1 z2 =>
      [0x81, 0x01, 0x06, 0x03, pan_speed, tilt_speed, y1, y2, y3, y4, z1, z2, 0xFF]
    | .panTiltHome => [0x81, 0x01, 0x06, 0x04, 0xFF]
    | .panTiltReset => [0x81, 0x01, 0x06, 0x05, 0xFF]
    | .panTiltLimitSet w y1 y2 y3 y4 z1 z2 z3 =>
      [0x81, 0x01, 0x06, 0x07, 0x00, w, y1, y2, y3, y4, z1, z2, z3, 0xFF]
    | .panTiltLimitClear w y1 y2 y3 y4 z1 z2 z3 =>
      [0x81, 0x01, 0x06, 0x07, 0x01, w, y1, y2, y3, y4, z1, z2, z3, 0xFF]
    | .zoomStop => [0x81, 0x01, 0x04, 0x07, 0x00, 0xFF]
    | .zoomTeleStandard => [0x81, 0x01, 0x04, 0x07, 0x02, 0xFF]
    | .zoomWideStandard => [0x81, 0x01, 0x04, 0x07, 0x03, 0xFF]
    | .zoomTeleAdjustableSpeed p => [0x81, 0x01, 0x04, 0x07, (0x20 + p) % 256, 0xFF]
    | .zoomWideAdjustableSpeed p => [0x81, 0x01, 0x04, 0x07, (0x30 + p) % 256, 0xFF]
    | .zoomDirect p q r s => [0x81, 0x01, 0x04, 0x47, p, q, r, s, 0xFF]
    | .focusMode mode => [0x81, 0x01, 0x04, 0x38, mode.toByte, 0xFF]
    | .focusToggle => [0x81, 0x01, 0x04, 0x38, 0x10, 0xFF]
    | .focusStop => [0x81, 0x01, 0x04, 0x08, 0x00, 0xFF]
    | .focusFarStandardSpeed => [0x81, 0x01, 0x04, 0x08, 0x02, 0xFF]
    | .focusNearStandardSpeed => [0x81, 0x01, 0x04, 0x08, 0x03, 0xFF]
    | .focusFarAdjustableSpeed p => [0x81, 0x01, 0x04, 0x08, (0x20 + p) % 256, 0xFF]
    | .focusNearAdjustableSpeed p => [0x81, 0x01, 0x04, 0x08, (0x30 + p) % 256, 0xFF]
    | .focusDirect p q r s => [0x81, 0x01, 0x04, 0x48, p, q, r, s, 0xFF]
    | .focusOnePushAutoFocus => [0x81, 0x01, 0x04, 0x38, 0x04, 0xFF]
    | .focusLock p => [0x81, 0x0A, 0x04, 0x68, p, 0xFF]
    | .focusZone p => [0x81, 0x01, 0x04, 0xAA, p, 0xFF]
    | .focusRange p rs tv => [0x81, 0x0A, 0x11, 0x42, p, rs, tv, 0xFF]
    | .focusRecalibrate => [0x81, 0x0A, 0x01, 0x03, 0x12, 0xFF]
    | .presetReset pp => [0x81, 0x01, 0x04, 0x3F, 0x00, pp, 0xFF]
    | .presetSet pp => [0x81, 0x01, 0x04, 0x3F, 0x01, pp, 0xFF]
    | .presetRecall pp => [0x81, 0x01, 0x04, 0x3F, 0x02, pp, 0xFF]
    | .presetSpeedDirect pp => [0x81, 0x01, 0x06, 0x01, pp, 0xFF]
    | .motionSyncOnOff flip => [0x81, 0x0A, 0x11, 0x13, flip.toByte, 0xFF]
    | .motionSyncMaxSpeedLimit p => [0x81, 0x0A, 0x11, 0x14, p, 0xFF]
    | .cameraMenuOpenClose => [0x81, 0x01, 0x04, 0x3F, 0x02, 0x5F, 0xFF]
    | .cameraMenuClose => [0x81, 0x01, 0x06, 0x06, 0x03, 0xFF]
    | .cameraMenuNavigateUp => [0x81, 0x01, 0x06, 0x01, 0x0E, 0x0E, 0x03, 0x01, 0xFF]
    | .cameraMenuNavigateDown => [0x81, 0x01, 0x06, 0x01, 0x0E, 0x0E, 0x03, 0x02, 0xFF]
    | .cameraMenuNavigateLeft => [0x81, 0x01, 0x06, 0x01, 0x0E, 0x0E, 0x01, 0x03, 0xFF]
    | .cameraMenuNavigateRight => [0x81, 0x01, 0x06, 0x01, 0x0E, 0x0E, 0x02, 0x03, 0xFF]
    | .cameraMenuEnter => [0x81, 0x01, 0x06, 0x06, 0x05, 0xFF]
    | .cameraMenuReturn => [0x81, 0x01, 0x06, 0x06, 0x04, 0xFF]
    | .systemPower power => [0x81, 0x01, 0x04, 0x00, power.toByte, 0xFF]
    | .systemIfClear => [0x81, 0x01, 0x00, 0x01, 0xFF]
    | .systemVideoTemplate p => [0x81, 0x0B, 0x01, 0x0D, p, 0xFF]
    | .systemLensType p => [0x81, 0x0A, 0x01, 0x04, 0x1B, p, 0xFF]
    | .systemMulticastOnOff flip => [0x81, 0x0B, 0x01, 0x23, flip.toByte, 0xFF]
    | .systemRtmpStream s flip => [0x81, 0x0A, 0x11, 0xA8, s, flip.toByte, 0xFF]
    | .systemStandbyLight p => [0x81, 0x0A, 0x02, 0x02, p, 0xFF]
    | .systemUsbAudio flip => [0x81, 0x2A, 0x02, 0xA0, 0x04, flip.toByte, 0xFF]
    | .systemPauseVideo flip => [0x81, 0x01, 0x04, 0x62, flip.toByte, 0xFF]
    | .systemSave => [0x81, 0x01, 0x04, 0xA5, 0x10, 0xFF]
    | .inquiryLuminance => [0x81, 0x09, 0x04, 0x47, 0xFF]
    | .inquiryContrast => [0x81, 0x09, 0x04, 0x48, 0xFF]
    | .inquirySharpnessMode => [0x81, 0x09, 0x04, 0x49, 0xFF]
    | .inquirySharpnessPosition => [0x81, 0x09, 0x04, 0x4A, 0xFF]
    | .inquiryHorizontalFlip => [0x81, 0x09, 0x04, 0x66, 0xFF]
    | .inquiryVerticalFlip => [0x81, 0x09, 0x04, 0x67, 0xFF]
    | .inquiryImageFlip => [0x81, 0x09, 0x04, 0x68, 0xFF]
    | .inquiryBlackWhiteMode => [0x81, 0x09, 0x04, 0x53, 0xFF]
    | .inquiryExposureCompensationMode => [0x81, 0x09, 0x04, 0x3E, 0xFF]
    | .inquiryExposureCompensationPosition => [0x81, 0x09, 0x04, 0x4E, 0xFF]
    | .inquiryBacklight => [0x81, 0x09, 0x04, 0x33, 0xFF]
    | .inquiryIris => [0x81, 0x09, 0x04, 0x4B, 0xFF]
    | .inquiryShutter => [0x81, 0x09, 0x04, 0x4A, 0xFF]
    | .inquiryGainLimit => [0x81, 0x09, 0x04, 0x2C, 0xFF]
    | .inquiryAntiFlicker => [0x81, 0x09, 0x04, 0x35, 0xFF]
    | .inquiryWhiteBalanceMode => [0x81, 0x09, 0x04, 0x35, 0xFF]
    | .inquiryRedTuning => [0x81, 0x09, 0x04, 0x42, 0xFF]
    | .inquiryBlueTuning => [0x81, 0x09, 0x04, 0x43, 0xFF]
    | .inquirySaturation => [0x81, 0x09, 0x04, 0x49, 0xFF]
    | .inquiryHue => [0x81, 0x09, 0x04, 0x4F, 0xFF]
    | .inquiryRedGain => [0x81, 0x09, 0x04, 0x44, 0xFF]
    | .inquiryBlueGain => [0x81, 0x09, 0x04, 0x45, 0xFF]
    | .inquiryColorTemperature => [0x81, 0x09, 0x04, 0x43, 0xFF]
    | .inquiryAutoWhiteBalanceSensitivity => [0x81, 0x09, 0x04, 0x38, 0xFF]
    | .inquiryThreeDNoiseReduction => [0x81, 0x09, 0x04, 0x52, 0xFF]
    | .inquiryTwoDNoiseReduction => [0x81, 0x09, 0x04, 0x53, 0xFF]
    | .inquiryPanTiltPosition => [0x81, 0x09, 0x06, 0x12, 0xFF]
    | .inquiryZoomPosition => [0x81, 0x09, 0x04, 0x47, 0xFF]
    | .inquiryMotionSyncSpeed => [0x81, 0x09, 0x04, 0x38, 0xFF]
    | .inquiryFocusPosition => [0x81, 0x09, 0x04, 0x48, 0xFF]
    | .inquiryFocusZone => [0x81, 0x09, 0x04, 0x4B, 0xFF]
    | .inquiryAutoFocusSensitivity => [0x81, 0x09, 0x04, 0x38, 0xFF]
    | .inquiryFocusRange => [0x81, 0x09, 0x04, 0x4C, 0xFF]
    | .inquiryMenuOpenClose => [0x81, 0x09, 0x04, 0x62, 0xFF]
    | .inquiryUsbAudio => [0x81, 0x09, 0x04, 0x61, 0xFF]
    | .inquiryRtmp => [0x81, 0x09, 0x11, 0x53, 0xFF]
    | .inquiryBlockLens => [0x81, 0x09, 0x7E, 0x7E, 0x00, 0xFF]
    | .inquiryBlockColorExposure => [0x81, 0x09, 0x7E, 0x7E, 0x01, 0xFF]
    | .inquiryBlockPowerImageEffect => [0x81, 0x09, 0x7E, 0x7E, 0x02, 0xFF]
    | .inquiryBlockImage => [0x81, 0x09, 0x7E, 0x7E, 0x03, 0xFF]
  .ok bytes

/-- Embeds `ViscaCommand::response_type` (src/visca_command.rs lines 628-686):
the inquiry variants and the two standard zoom drives map to their
`ViscaResponseType`, every other variant to `None`. -/
def ViscaCommand.response_type : ViscaCommand → Option ViscaResponseType
  | .inquiryLuminance => some .luminance
  | .inquiryContrast => some .contrast
  | .inquirySharpnessMode => some .sharpnessMode
  | .inquirySharpnessPosition => some .sharpnessPosition
  | .inquiryHorizontalFlip => some .horizontalFlip
  | .inquiryVerticalFlip => some .verticalFlip
  | .inquiryImageFlip => some .imageFlip
  | .inquiryBlackWhiteMode => some .blackWhiteMode
  | .inquiryExposureCompensationMode => some .exposureCompensationMode
  | .inquiryExposureCompensationPosition => some .exposureCompensationPosition
  | .inquiryBacklight => some .backlight
  | .inquiryIris => some .iris
  | .inquiryShutter => some .shutter
  | .inquiryGainLimit => some .gainLimit
  | .inquiryAntiFlicker => some .antiFlicker
  | .inquiryWhiteBalanceMode => some .whiteBalanceMode
  | .inquiryRedTuning => some .redTuning
  | .inquiryBlueTuning => some .blueTuning
  | .inquirySaturation => some .saturation
  | .inquiryHue => some .hue
  | .inquiryRedGain => some .redGain
  | .inquiryBlueGain => some .blueGain
  | .inquiryColorTemperature => some .colorTemperature
  | .inquiryAutoWhiteBalanceSensitivity => some .autoWhiteBalanceSensitivity
  | .inquiryThreeDNoiseReduction => some .threeDNoiseReduction
  | .inquiryTwoDNoiseReduction => some .twoDNoiseReduction
  | .inquiryPanTiltPosition => some .panTiltPosition
  | .inquiryZoomPosition => some .zoomPosition
  | .inquiryMotionSyncSpeed => some .motionSyncSpeed
  | .inquiryFocusPosition => some .focusPosition
  | .inquiryFocusZone => some .focusZone
  | .inquiryAutoFocusSensitivity => some .autoFocusSensitivity
  | .inquiryFocusRange => some .focusRange
  | .inquiryMenuOpenClose => some .menuOpenClose
  | .inquiryUsbAudio => some .usbAudio
  | .inquiryRtmp => some .rtmp
  | .inquiryBlockLens => some .blockLens
  | .inquiryBlockColorExposure => some .blockColorExposure
  | .inquiryBlockPowerImageEffect => some .blockPowerImageEffect
  | .inquiryBlockImage => some .blockImage
  | .zoomWideStandard => some .zoomWideStandard
  | .zoomTeleStandard => some .zoomTeleStandard
  | _ => none

/-- Reduced model of `std::io::Error` as produced by src/lib.rs. -/
inductive IoError where
  | invalidData (msg : String)
  deriving DecidableEq

/-- Loop body of `parse_response` (src/lib.rs lines 46-70), with the mutable
loop state made explicit: `responses` is the vector of emitted messages,
`response` the current accumulator, `started` the `start_index` flag.  Each
byte is pushed into the accumulator; a `0x90` byte sets the flag; a `0xFF`
byte with the flag set emits the accumulator and resets it. -/
def parseResponseGo (buffer : List Nat) (responses : List (List Nat))
    (response : List Nat) (started : Bool) : List (List Nat) × List Nat × Bool :=
  match buffer with
  | [] => (responses, response, started)
  | b :: rest =>
    let response' := response ++ [b]
    if b = 0x90 then
      parseResponseGo rest responses response' true
    else if b = 0xFF ∧ started = true then
      parseResponseGo rest (responses ++ [response']) [] false
    else
      parseResponseGo rest responses response' started

/-- Embeds `parse_response` (src/lib.rs lines 46-70): run the scan from the
empty state; if the flag is still set at the end the function fails with the
`Incomplete response received` error, otherwise it returns the messages (and
silently drops the residual accumulator). -/
def parse_response (buffer : List Nat) : Except IoError (List (List Nat)) :=
  match parseResponseGo buffer [] [] false with
  | (responses, _, started) =>
    if started then .error (.invalidData "Incomplete response received")
    else .ok responses

/-- Embeds the terminator test of `receive_response`
(src/lib.rs line 95 and line 132): `buffer[bytes_received - 1] == 0xFF` on the
1024-byte read buffer.  `bytes_received = 0` makes `bytes_received - 1`
underflow `usize` and index out of bounds — a panic, modelled as `none`;
otherwise the indexed byte is compared against `0xFF`. -/
def receiveTerminatorCheck (buffer : List Nat) (bytes_received : Nat) : Option Bool :=
  if bytes_received = 0 ∨ buffer.length ≤ bytes_received - 1 then none
  else some (buffer.getD (bytes_received - 1) 0 == 0xFF)

/-- Embeds the per-message completion test of `send_command_and_wait`
(src/lib.rs lines 159-172): for a pan/tilt-position inquiry the loop returns
`Ok(())` on an 11-byte `90 50 .. FF` frame; for every other command it
returns `Ok(())` on any 4-byte frame, or on a 3-byte frame whose second byte
is in `0x50..=0x5F`. -/
def commandDone (response_type : Option ViscaResponseType) (response : List Nat) : Bool :=
  if response_type = some ViscaResponseType.panTiltPosition then
    decide (response.length = 11 ∧ response.getD 0 0 = 0x90 ∧
      response.getD 1 0 = 0x50 ∧ response.getD 10 0 = 0xFF)
  else
    decide (response.length = 4 ∨
      (response.length = 3 ∧ 0x50 ≤ response.getD 1 0 ∧ response.getD 1 0 ≤ 0x5F))

/-- One pass of the receive loop of `send_command_and_wait` (src/lib.rs lines
153-180) over a batch of framed messages: `some ()` models `return Ok(())`
(the call reports success), `none` models falling through and waiting for
more bytes.  No branch of the loop ever produces an `Err` from a framed
message; errors arise only from the transport itself. -/
def sendCommandAndWaitStep (response_type : Option ViscaResponseType)
    (responses : List (List Nat)) : Option Unit :=
  if responses.any (commandDone response_type) then some () else none

/-! ### Helper lemmas -/

/-- The 4-nibble decode inverts the unmasked 4-byte encode of
`ZoomCommand::Direct` / `FocusCommand::Direct` on every 16-bit value: the
truncated middle bytes still carry their nibble in the right position. -/
theorem word16_encode_roundtrip (x : Nat) (hx : x < 65536) :
    word16 ((x >>> 12) % 256) ((x >>> 8) % 256) ((x >>> 4) % 256)
      ((x &&& 0x0F) % 256) = x := by
  have h65536 : (65536 : Nat) = 2 ^ 16 := by norm_num
  have h256 : (256 : Nat) = 2 ^ 8 := by norm_num
  have h15 : (0x0F : Nat) = 2 ^ 4 - 1 := by norm_num
  unfold word16
  apply Nat.eq_of_testBit_eq
  intro i
  rcases Nat.lt_or_ge i 16 with hi | hi
  · rw [h65536, h256, h15]
    simp only [Nat.testBit_lor, Nat.testBit_mod_two_pow, Nat.testBit_shiftLeft,
      Nat.testBit_shiftRight, Nat.and_pow_two_sub_one_eq_mod]
    interval_cases i <;> simp
  · have hx' : x < 2 ^ i := lt_of_lt_of_le hx (by
      calc (65536 : Nat) = 2 ^ 16 := by norm_num
      _ ≤ 2 ^ i := Nat.pow_le_pow_right (by norm_num) hi)
    rw [Nat.testBit_lt_two_pow hx']
    rw [h65536, h256, h15]
    simp only [Nat.testBit_lor, Nat.testBit_mod_two_pow, Nat.testBit_shiftLeft,
      Nat.testBit_shiftRight, Nat.and_pow_two_sub_one_eq_mod]
    have h1 : ¬ i < 16 := by omega
    simp only [h1, decide_False, Bool.false_and, Bool.and_false, Bool.or_self,
      Bool.false_or]
    have h8 : ¬ i < 8 := by omega
    simp [h8]

/-- On nibble inputs the internal truncations of `word16` vanish, leaving the
plain shift-and-OR combination. -/
theorem word16_nibbles (a b c d : Nat)
    (ha : a < 16) (hb : b < 16) (hc : c < 16) (hd : d < 16) :
    word16 a b c d = (a <<< 12) ||| (b <<< 8) ||| (c <<< 4) ||| d := by
  unfold word16
  have ha' : a % 256 = a := Nat.mod_eq_of_lt (by omega)
  have hb' : b % 256 = b := Nat.mod_eq_of_lt (by omega)
  have hc' : c % 256 = c := Nat.mod_eq_of_lt (by omega)
  have hd' : d % 256 = d := Nat.mod_eq_of_lt (by omega)
  rw [ha', hb', hc', hd']
  have sa : a <<< 12 = a * 4096 := by rw [Nat.shiftLeft_eq]
  have sb : b <<< 8 = b * 256 := by rw [Nat.shiftLeft_eq]
  have sc : c <<< 4 = c * 16 := by rw [Nat.shiftLeft_eq]
  rw [sa, sb, sc,
    Nat.mod_eq_of_lt (show a * 4096 < 65536 by omega),
    Nat.mod_eq_of_lt (show b * 256 < 65536 by omega),
    Nat.mod_eq_of_lt (show c * 16 < 65536 by omega)]

/-- The frame-splitter scan never drops a byte: the emitted messages plus the
current accumulator always hold exactly the already-consumed input. -/
theorem parseResponseGo_join (buffer : List Nat) :
    ∀ (responses : List (List Nat)) (response : List Nat) (started : Bool),
      (parseResponseGo buffer responses response started).1.flatten ++
          (parseResponseGo buffer responses response started).2.1
        = responses.flatten ++ response ++ buffer := by
  induction buffer with
  | nil =>
    intro responses response started
    simp [parseResponseGo]
  | cons b rest ih =>
    intro responses response started
    unfold parseResponseGo
    by_cases hb : b = 0x90
    · rw [if_pos hb, ih]
      simp
    · rw [if_neg hb]
      by_cases hf : b = 0xFF ∧ started = true
      · rw [if_pos hf, ih]
        simp
      · rw [if_neg hf, ih]
        simp

/-- Every message the frame-splitter scan emits has at least 2 bytes,
provided the accumulator is nonempty whenever the start flag is set (which
holds from the initial state, since only a pushed `0x90` sets the flag). -/
theorem parseResponseGo_minlen (buffer : List Nat) :
    ∀ (responses : List (List Nat)) (response : List Nat) (started : Bool),
      (started = true → response ≠ []) →
      (∀ m ∈ responses, 2 ≤ m.length) →
      ∀ m ∈ (parseResponseGo buffer responses response started).1, 2 ≤ m.length := by
  induction buffer with
  | nil =>
    intro responses response started _ hresp
    simpa [parseResponseGo] using hresp
  | cons b rest ih =>
    intro responses response started hstart hresp
    unfold parseResponseGo
    by_cases hb : b = 0x90
    · rw [if_pos hb]
      exact ih _ _ _ (fun _ => by simp) hresp
    · rw [if_neg hb]
      by_cases hf : b = 0xFF ∧ started = true
      · rw [if_pos hf]
        refine ih _ _ _ (fun h => by simp at h) ?_
        intro m hm
        rcases List.mem_append.mp hm with h | h
        · exact hresp m h
        · have hne : response ≠ [] := hstart hf.2
          have : m = response ++ [b] := by simpa using h
          subst this
          have : 1 ≤ response.length := List.length_pos.mpr hne
          simp [List.length_append]
          omega
      · rw [if_neg hf]
        refine ih _ _ _ (fun h => by simp) hresp

/-! ### Claims -/

/-- C1: the Response Decoder classifies every framed message by its second
byte — 0x40-0x4F yields Ack; 0x50-0x5F with total length exactly 3 yields
Completion; 0x60-0x6F yields the device error determined by the subcode byte
through the fixed table (0x02 SyntaxError, 0x03 BufferFull, 0x04 Canceled,
0x05 NoSocket, 0x41 NotExecutable, anything else UnknownErrorCode(subcode));
any other second byte yields Unrecognized carrying the raw bytes and never
fails. -/
theorem c1_response_classification (r : List Nat) (rt : ViscaResponseType)
    (hlen : 3 ≤ r.length) (hhead : r.getD 0 0 = 0x90)
    (hlast : r.getD (r.length - 1) 0 = 0xFF) :
    (0x40 ≤ r.getD 1 0 ∧ r.getD 1 0 ≤ 0x4F →
      parse_visca_response r rt = .ok .ack) ∧
    (0x50 ≤ r.getD 1 0 ∧ r.getD 1 0 ≤ 0x5F ∧ r.length = 3 →
      parse_visca_response r rt = .ok .completion) ∧
    (0x60 ≤ r.getD 1 0 ∧ r.getD 1 0 ≤ 0x6F →
      parse_visca_response r rt = .error (ViscaError.from_code (r.getD 2 0))) ∧
    (r.getD 1 0 < 0x40 ∨ 0x6F < r.getD 1 0 →
      parse_visca_response r rt = .ok (.unknown r)) ∧
    ViscaError.from_code 0x02 = .synError ∧
    ViscaError.from_code 0x03 = .commandBufferFull ∧
    ViscaError.from_code 0x04 = .commandCanceled ∧
    ViscaError.from_code 0x05 = .noSocket ∧
    ViscaError.from_code 0x41 = .commandNotExecutable ∧
    (∀ s, s ≠ 0x02 → s ≠ 0x03 → s ≠ 0x04 → s ≠ 0x05 → s ≠ 0x41 →
      ViscaError.from_code s = .unknown s) := by
  have hguard : ¬(r.length < 3 ∨ r.getD 0 0 ≠ 0x90 ∨
      r.getD (r.length - 1) 0 ≠ 0xFF) := by
    push_neg
    exact ⟨by omega, hhead, hlast⟩
  refine ⟨?_, ?_, ?_, ?_, rfl, rfl, rfl, rfl, rfl, ?_⟩
  · rintro ⟨h1, h2⟩
    unfold parse_visca_response
    rw [if_neg hguard, if_pos ⟨h1, h2⟩]
  · rintro ⟨h1, h2, h3⟩
    unfold parse_visca_response
    rw [if_neg hguard, if_neg (fun h => by omega : ¬(0x40 ≤ r.getD 1 0 ∧ r.getD 1 0 ≤ 0x4F)),
      if_pos ⟨h1, h2⟩, if_pos h3]
  · rintro ⟨h1, h2⟩
    unfold parse_visca_response
    rw [if_neg hguard,
      if_neg (fun h => by omega : ¬(0x40 ≤ r.getD 1 0 ∧ r.getD 1 0 ≤ 0x4F)),
      if_neg (fun h => by omega : ¬(0x50 ≤ r.getD 1 0 ∧ r.getD 1 0 ≤ 0x5F)),
      if_pos ⟨h1, h2⟩]
  · intro h
    unfold parse_visca_response
    rw [if_neg hguard,
      if_neg (fun hc => by rcases h with h | h <;> omega :
        ¬(0x40 ≤ r.getD 1 0 ∧ r.getD 1 0 ≤ 0x4F)),
      if_neg (fun hc => by rcases h with h | h <;> omega :
        ¬(0x50 ≤ r.getD 1 0 ∧ r.getD 1 0 ≤ 0x5F)),
      if_neg (fun hc => by rcases h with h | h <;> omega :
        ¬(0x60 ≤ r.getD 1 0 ∧ r.getD 1 0 ≤ 0x6F))]
  · intro s h2 h3 h4 h5 h41
    unfold ViscaError.from_code
    rw [if_neg h2, if_neg h3, if_neg h4, if_neg h5, if_neg h41]

/-- Witness for C1: the concrete Ack frame `90 41 FF` decodes to Ack. -/
theorem c1_witness :
    parse_visca_response [0x90, 0x41, 0xFF] .panTiltPosition = .ok .ack :=
  (c1_response_classification [0x90, 0x41, 0xFF] .panTiltPosition (by decide)
    (by decide) (by decide)).1 (by decide)

/-- C2: for every 16-bit value, the 4-nibble packing of `ZoomCommand::Direct`
and `FocusCommand::Direct` followed by the Response Decoder's 4-nibble decode
(byte 0 shifted left 12, byte 1 left 8, byte 2 left 4, byte 3 OR-ed in)
returns the original value. -/
theorem c2_encode_decode_roundtrip (x : Nat) (hx : x < 65536) :
    ZoomCommand.to_bytes (.direct x) = .ok [0x81, 0x01, 0x04, 0x47,
      (x >>> 12) % 256, (x >>> 8) % 256, (x >>> 4) % 256, (x &&& 0x0F) % 256, 0xFF] ∧
    FocusCommand.to_bytes (.direct x) = .ok [0x81, 0x01, 0x04, 0x48,
      (x >>> 12) % 256, (x >>> 8) % 256, (x >>> 4) % 256, (x &&& 0x0F) % 256, 0xFF] ∧
    parse_visca_response [0x90, 0x50, (x >>> 12) % 256, (x >>> 8) % 256,
        (x >>> 4) % 256, (x &&& 0x0F) % 256, 0xFF] .zoomPosition
      = .ok (.inquiryResponse (.zoomPosition x)) ∧
    parse_visca_response [0x90, 0x50, (x >>> 12) % 256, (x >>> 8) % 256,
        (x >>> 4) % 256, (x &&& 0x0F) % 256, 0xFF] .focusPosition
      = .ok (.inquiryResponse (.focusPosition x)) := by
  refine ⟨rfl, rfl, ?_, ?_⟩
  · have hparse : parse_visca_response [0x90, 0x50, (x >>> 12) % 256, (x >>> 8) % 256,
        (x >>> 4) % 256, (x &&& 0x0F) % 256, 0xFF] .zoomPosition
        = .ok (.inquiryResponse (.zoomPosition (word16 ((x >>> 12) % 256)
            ((x >>> 8) % 256) ((x >>> 4) % 256) ((x &&& 0x0F) % 256)))) := rfl
    rw [hparse, word16_encode_roundtrip x hx]
  · have hparse : parse_visca_response [0x90, 0x50, (x >>> 12) % 256, (x >>> 8) % 256,
        (x >>> 4) % 256, (x &&& 0x0F) % 256, 0xFF] .focusPosition
        = .ok (.inquiryResponse (.focusPosition (word16 ((x >>> 12) % 256)
            ((x >>> 8) % 256) ((x >>> 4) % 256) ((x &&& 0x0F) % 256)))) := rfl
    rw [hparse, word16_encode_roundtrip x hx]

/-- Witness for C2: the round trip at the concrete position `0x1234`. -/
theorem c2_witness :
    parse_visca_response [0x90, 0x50, (0x1234 >>> 12) % 256, (0x1234 >>> 8) % 256,
        (0x1234 >>> 4) % 256, (0x1234 &&& 0x0F) % 256, 0xFF] .zoomPosition
      = .ok (.inquiryResponse (.zoomPosition 0x1234)) :=
  (c2_encode_decode_roundtrip 0x1234 (by decide)).2.2.1

/-- C3 (amended): the Frame Splitter never drops bytes — the concatenation of
all emitted messages plus the retained accumulator equals the input — and
every emitted message has at least 2 bytes (header and terminator; the code
does not guarantee the claimed minimum of 3, see the counterexample). -/
theorem c3_no_byte_loss (buffer : List Nat) :
    (parseResponseGo buffer [] [] false).1.flatten ++
        (parseResponseGo buffer [] [] false).2.1 = buffer ∧
    ∀ m ∈ (parseResponseGo buffer [] [] false).1, 2 ≤ m.length := by
  constructor
  · simpa using parseResponseGo_join buffer [] [] false
  · exact parseResponseGo_minlen buffer [] [] false (fun h => by simp at h) (by simp)

/-- Witness for C3: byte conservation on the concrete input `90 41 FF`. -/
theorem c3_witness :
    (parseResponseGo [0x90, 0x41, 0xFF] [] [] false).1.flatten ++
        (parseResponseGo [0x90, 0x41, 0xFF] [] [] false).2.1 = [0x90, 0x41, 0xFF] :=
  (c3_no_byte_loss [0x90, 0x41, 0xFF]).1

/-- Counterexample for C3 as stated: the input `90 FF` makes `parse_response`
emit the 2-byte message `[0x90, 0xFF]`, below the claimed 3-byte minimum. -/
theorem c3_counterexample :
    parse_response [0x90, 0xFF] = .ok [[0x90, 0xFF]] ∧
    ([0x90, 0xFF] : List Nat).length < 3 := by
  refine ⟨rfl, by decide⟩

/-- C4 (code bug): on receiving the device-error frame `90 60 02 FF`,
`send_command_and_wait` does not return a failure carrying SyntaxError —
for a command without a pan/tilt-position shape (e.g. `PanTiltHome`) the
frame's length of 4 makes the loop return plain success, and for a
pan/tilt-position inquiry the frame is ignored and the loop keeps waiting;
the crate's own decoder `parse_visca_response` and error table classify the
very same frame as the SyntaxError failure the claim expects. -/
theorem c4_device_error_swallowed :
    ViscaCommand.response_type .panTiltHome = none ∧
    sendCommandAndWaitStep (ViscaCommand.response_type .panTiltHome)
      [[0x90, 0x60, 0x02, 0xFF]] = some () ∧
    sendCommandAndWaitStep (some .panTiltPosition) [[0x90, 0x60, 0x02, 0xFF]] = none ∧
    parse_visca_response [0x90, 0x60, 0x02, 0xFF] .panTiltPosition
      = .error .synError ∧
    ViscaError.from_code 0x02 = .synError :=
  ⟨rfl, rfl, rfl, rfl, rfl⟩

/-- C5 counterexample: `LuminanceCommand` with the constructible field value
15 is rejected by `to_bytes` itself with a parameter-range error, so range
errors are not confined to construction time. -/
theorem c5_counterexample :
    LuminanceCommand.to_bytes ⟨15⟩
      = .error (.invalidParameter "Luminance value must be in the range 0..=14") ∧
    exOk (LuminanceCommand.to_bytes ⟨15⟩) = false :=
  ⟨rfl, rfl⟩

/-- C5 (amended): only the pan/tilt drive validates at bounded-type
construction — `PanTiltCommand::to_bytes` never returns a range error — while
the raw-field commands (luminance, contrast, sharpness, preset, variable
zoom/focus speed) validate at encode time: their `to_bytes` succeeds exactly
when the field is within its documented bound and otherwise returns the
parameter-range error. -/
theorem c5_validation_sites :
    (∀ c : PanTiltCommand, exOk c.to_bytes = true) ∧
    (∀ v, exOk (LuminanceCommand.to_bytes ⟨v⟩) = true ↔ v ≤ 14) ∧
    (∀ v, exOk (ContrastCommand.to_bytes ⟨v⟩) = true ↔ v ≤ 14) ∧
    (∀ v, exOk (SharpnessCommand.to_bytes ⟨v⟩) = true ↔ v ≤ 11) ∧
    (∀ a n, exOk (PresetCommand.to_bytes ⟨a, n⟩) = true ↔ n ≤ 0x59) ∧
    (∀ s, exOk (ZoomCommand.to_bytes (.teleVariable s)) = true ↔ s ≤ 7) ∧
    (∀ s, exOk (ZoomCommand.to_bytes (.wideVariable s)) = true ↔ s ≤ 7) ∧
    (∀ s, exOk (FocusCommand.to_bytes (.farVariable s)) = true ↔ s ≤ 7) ∧
    (∀ s, exOk (FocusCommand.to_bytes (.nearVariable s)) = true ↔ s ≤ 7) := by
  refine ⟨?_, ?_, ?_, ?_, ?_, ?_, ?_, ?_, ?_⟩
  · intro c
    by_cases h : c.direction = .home <;> simp [PanTiltCommand.to_bytes, exOk, h]
  · intro v
    by_cases h : v ≤ 14 <;> simp [LuminanceCommand.to_bytes, exOk, h]
  · intro v
    by_cases h : v ≤ 14 <;> simp [ContrastCommand.to_bytes, exOk, h]
  · intro v
    by_cases h : v ≤ 11 <;> simp [SharpnessCommand.to_bytes, exOk, h]
  · intro a n
    by_cases h : n ≤ 0x59 <;> simp [PresetCommand.to_bytes, exOk, h]
  · intro s
    by_cases h : s ≤ 7 <;> simp [ZoomCommand.to_bytes, exOk, h]
  · intro s
    by_cases h : s ≤ 7 <;> simp [ZoomCommand.to_bytes, exOk, h]
  · intro s
    by_cases h : s ≤ 7 <;> simp [FocusCommand.to_bytes, exOk, h]
  · intro s
    by_cases h : s ≤ 7 <;> simp [FocusCommand.to_bytes, exOk, h]

/-- C6: an 8-bit pan drive speed constructs exactly on {0} ∪ [1, 0x18] and an
8-bit tilt drive speed exactly on {0} ∪ [1, 0x14]; in particular 0x19 is
rejected with the parameter-range error while 0x18 and 0x00 are accepted. -/
theorem c6_speed_construction :
    (∀ v, v < 256 → (exOk (PanSpeed.new v) = true ↔ v = 0 ∨ (1 ≤ v ∧ v ≤ 0x18))) ∧
    (∀ v, v < 256 → (exOk (TiltSpeed.new v) = true ↔ v = 0 ∨ (1 ≤ v ∧ v ≤ 0x14))) ∧
    PanSpeed.new 0x19
      = .error (.invalidParameter "Pan speed must be in the range 0x00..=0x18") ∧
    exOk (PanSpeed.new 0x18) = true ∧
    exOk (PanSpeed.new 0x00) = true := by
  refine ⟨by decide, by decide, by decide, by decide, by decide⟩

/-- Witness for C6: the boundary speeds 0x18 (pan) and 0x14 (tilt) construct. -/
theorem c6_witness :
    exOk (PanSpeed.new 0x18) = true ∧ exOk (TiltSpeed.new 0x14) = true :=
  ⟨(c6_speed_construction.1 0x18 (by decide)).mpr (Or.inr ⟨by decide, by decide⟩),
   (c6_speed_construction.2.1 0x14 (by decide)).mpr (Or.inr ⟨by decide, by decide⟩)⟩

/-- C7 (code bug): `ZoomCommand::Direct`/`FocusCommand::Direct` truncate the
shifted position with a plain `as u8` instead of masking to a nibble: at
position `0x1234` the second parameter byte is `0x12 > 0x0F`, and at
`0xFF00` the encoding even embeds the terminator byte `0xFF` mid-message. -/
theorem c7_middle_bytes_not_nibbles :
    ZoomCommand.to_bytes (.direct 0x1234)
      = .ok [0x81, 0x01, 0x04, 0x47, 0x01, 0x12, 0x23, 0x04, 0xFF] ∧
    FocusCommand.to_bytes (.direct 0x1234)
      = .ok [0x81, 0x01, 0x04, 0x48, 0x01, 0x12, 0x23, 0x04, 0xFF] ∧
    ¬ (0x12 : Nat) ≤ 0x0F ∧
    ZoomCommand.to_bytes (.direct 0xFF00)
      = .ok [0x81, 0x01, 0x04, 0x47, 0x0F, 0xFF, 0xF0, 0x00, 0xFF] := by
  refine ⟨by decide, by decide, by decide, by decide⟩

/-- C8 counterexample: under the pan/tilt-position shape a framed length-3
reply is decoded as Completion, not rejected with InvalidResponseLength, so
"any other total length is rejected" fails at length 3. -/
theorem c8_counterexample :
    parse_visca_response [0x90, 0x50, 0xFF] .panTiltPosition = .ok .completion ∧
    parse_visca_response [0x90, 0x50, 0xFF] .panTiltPosition
      ≠ .error .invalidResponseLength := by
  refine ⟨rfl, by decide⟩

/-- C8 (amended): the pan/tilt position inquiry encodes to
`81 09 06 12 FF`; an 11-byte reply `90 50 p1..p4 t1..t4 FF` with nibble body
bytes decodes to the inquiry result whose pan and tilt are the signed 16-bit
(two's complement) readings of `(p1<<12)|(p2<<8)|(p3<<4)|p4` and
`(t1<<12)|(t2<<8)|(t3<<4)|t4`; and any framed reply of this shape whose
length is neither 3 (Completion) nor 11 is rejected with
InvalidResponseLength. -/
theorem c8_pan_tilt_inquiry :
    ViscaCommand.to_bytes .inquiryPanTiltPosition
      = .ok [0x81, 0x09, 0x06, 0x12, 0xFF] ∧
    InquiryCommand.to_bytes .panTiltPosition = .ok [0x81, 0x09, 0x06, 0x12, 0xFF] ∧
    (∀ p1 p2 p3 p4 t1 t2 t3 t4 : Nat,
      p1 < 16 → p2 < 16 → p3 < 16 → p4 < 16 →
      t1 < 16 → t2 < 16 → t3 < 16 → t4 < 16 →
      parse_visca_response [0x90, 0x50, p1, p2, p3, p4, t1, t2, t3, t4, 0xFF]
          .panTiltPosition
        = .ok (.inquiryResponse (.panTiltPosition
            (toSigned16 ((p1 <<< 12) ||| (p2 <<< 8) ||| (p3 <<< 4) ||| p4))
            (toSigned16 ((t1 <<< 12) ||| (t2 <<< 8) ||| (t3 <<< 4) ||| t4))))) ∧
    (∀ r : List Nat, 3 ≤ r.length → r.getD 0 0 = 0x90 →
      r.getD (r.length - 1) 0 = 0xFF → 0x50 ≤ r.getD 1 0 → r.getD 1 0 ≤ 0x5F →
      r.length ≠ 3 → r.length ≠ 11 →
      parse_visca_response r .panTiltPosition = .error .invalidResponseLength) := by
  refine ⟨rfl, rfl, ?_, ?_⟩
  · intro p1 p2 p3 p4 t1 t2 t3 t4 hp1 hp2 hp3 hp4 ht1 ht2 ht3 ht4
    have hparse : parse_visca_response
        [0x90, 0x50, p1, p2, p3, p4, t1, t2, t3, t4, 0xFF] .panTiltPosition
        = .ok (.inquiryResponse (.panTiltPosition
            (toSigned16 (word16 p1 p2 p3 p4)) (toSigned16 (word16 t1 t2 t3 t4)))) := rfl
    rw [hparse, word16_nibbles p1 p2 p3 p4 hp1 hp2 hp3 hp4,
      word16_nibbles t1 t2 t3 t4 ht1 ht2 ht3 ht4]
  · intro r h3 h0 hL h50 h5F hn3 hn11
    have hguard : ¬(r.length < 3 ∨ r.getD 0 0 ≠ 0x90 ∨
        r.getD (r.length - 1) 0 ≠ 0xFF) := by
      push_neg
      exact ⟨by omega, h0, hL⟩
    simp only [parse_visca_response]
    rw [if_neg hguard,
      if_neg (fun h => by omega : ¬(0x40 ≤ r.getD 1 0 ∧ r.getD 1 0 ≤ 0x4F)),
      if_pos ⟨h50, h5F⟩, if_neg hn3, if_pos hn11]

/-- Witness for C8: the 11-byte reply with nibble bytes 1..8 decodes to the
signed readings of the two nibble combinations. -/
theorem c8_witness :
    parse_visca_response [0x90, 0x50, 0x01, 0x02, 0x03, 0x04, 0x05, 0x06, 0x07, 0x08, 0xFF]
        .panTiltPosition
      = .ok (.inquiryResponse (.panTiltPosition
          (toSigned16 ((0x01 <<< 12) ||| (0x02 <<< 8) ||| (0x03 <<< 4) ||| 0x04))
          (toSigned16 ((0x05 <<< 12) ||| (0x06 <<< 8) ||| (0x07 <<< 4) ||| 0x08)))) :=
  c8_pan_tilt_inquiry.2.2.1 0x01 0x02 0x03 0x04 0x05 0x06 0x07 0x08 (by decide)
    (by decide) (by decide) (by decide) (by decide) (by decide) (by decide) (by decide)

/-- C9 (code bug): the terminator test of `receive_response` indexes the read
buffer at `bytes_received - 1`; a read that returns zero bytes (TCP
end-of-stream, empty datagram) underflows the index and panics instead of
returning a value or an error, while every read of 1..=1024 bytes stays in
bounds. -/
theorem c9_zero_read_out_of_bounds :
    receiveTerminatorCheck (List.replicate 1024 0) 0 = none ∧
    receiveTerminatorCheck (List.replicate 1024 0) 1 = some false ∧
    receiveTerminatorCheck (0xFF :: List.replicate 1023 0) 1 = some true := by
  refine ⟨rfl, by decide, by decide⟩

/-- C10 counterexample: at speed `0xE0` the command byte `0x20 + p` of
`ZoomTeleAdjustableSpeed` exceeds `u8` — the encoder emits the wrapped byte
`0x00`, not the true sum, so the addition does overflow for some p. -/
theorem c10_counterexample :
    ViscaCommand.to_bytes (.zoomTeleAdjustableSpeed 0xE0)
      = .ok [0x81, 0x01, 0x04, 0x07, 0x00, 0xFF] ∧
    (0x20 + 0xE0) % 256 ≠ 0x20 + 0xE0 := by
  refine ⟨rfl, by decide⟩

/-- C10 (amended): `ViscaCommand::to_bytes` returns Ok for every variant with
no field validation; the adjustable-speed arms emit `(0x20 + p) mod 256` /
`(0x30 + p) mod 256`, and for byte-valued p the addition stays within `u8`
exactly when p ≤ 0xDF (base 0x20) resp. p ≤ 0xCF (base 0x30). -/
theorem c10_to_bytes_total :
    (∀ c : ViscaCommand, exOk c.to_bytes = true) ∧
    (∀ p, ViscaCommand.to_bytes (.zoomTeleAdjustableSpeed p)
      = .ok [0x81, 0x01, 0x04, 0x07, (0x20 + p) % 256, 0xFF]) ∧
    (∀ p, ViscaCommand.to_bytes (.zoomWideAdjustableSpeed p)
      = .ok [0x81, 0x01, 0x04, 0x07, (0x30 + p) % 256, 0xFF]) ∧
    (∀ p, ViscaCommand.to_bytes (.focusFarAdjustableSpeed p)
      = .ok [0x81, 0x01, 0x04, 0x08, (0x20 + p) % 256, 0xFF]) ∧
    (∀ p, ViscaCommand.to_bytes (.focusNearAdjustableSpeed p)
      = .ok [0x81, 0x01, 0x04, 0x08, (0x30 + p) % 256, 0xFF]) ∧
    (∀ p, p < 256 → ((0x20 + p) % 256 = 0x20 + p ↔ p ≤ 0xDF)) ∧
    (∀ p, p < 256 → ((0x30 + p) % 256 = 0x30 + p ↔ p ≤ 0xCF)) := by
  refine ⟨fun c => rfl, fun p => rfl, fun p => rfl, fun p => rfl, fun p => rfl, ?_, ?_⟩
  · intro p hp
    omega
  · intro p hp
    omega

/-- Witness for C10: the adjustable zoom byte at the in-range speed 0x10. -/
theorem c10_witness :
    ViscaCommand.to_bytes (.zoomTeleAdjustableSpeed 0x10)
      = .ok [0x81, 0x01, 0x04, 0x07, (0x20 + 0x10) % 256, 0xFF] ∧
    ((0x20 + 0x10) % 256 = 0x20 + 0x10 ↔ (0x10 : Nat) ≤ 0xDF) :=
  ⟨c10_to_bytes_total.2.1 0x10, c10_to_bytes_total.2.2.2.2.2.1 0x10 (by decide)⟩

end GraftonVisca
